import Mathlib

/-!
Verification of the smb-js wrapper (File System Access surface over an SMB
share).  The TypeScript wrapper layer is embedded from src/indax.ts and from
the compiled copies in src/examples/notify_test.js; the native core
(writable-stream state machine, chunked read path, directory operations,
handle identity) is not shipped in this repository, so those parts are
modelled from the specification, as marked on each definition.
-/

namespace Smb

/-- Bytes are modelled as natural numbers; the zero byte is 0. -/
abbrev Byte := Nat

/-- A JavaScript error value as observed by callers: a name and an optional
message (message is absent when the rejection carries no message field). -/
structure JsError where
  name : String
  message : Option String
deriving DecidableEq

/-- The exact kind-mismatch message tested for in
SmbDirectoryHandle.getDirectoryHandle and .getFileHandle (src/indax.ts). -/
def typeMismatchMessage : String :=
  "The path supplied exists, but was not an entry of requested type."

/-- Does the haystack start with the needle?  Auxiliary for the model of
JavaScript String.indexOf used in src/indax.ts. -/
def startsWithChars : List Char → List Char → Bool
  | _, [] => true
  | [], _ :: _ => false
  | h :: hs, n :: ns => h == n && startsWithChars hs ns

/-- Does the haystack contain the needle as a contiguous substring?
Models the test errMsg.indexOf(needle) != -1 from src/indax.ts. -/
def containsChars : List Char → List Char → Bool
  | [], needle => startsWithChars [] needle
  | hay@(_ :: hs), needle => startsWithChars hay needle || containsChars hs needle

/-- The characters of the substring searched for by the catch handlers in
src/indax.ts lines 110 and 127. -/
def notFoundChars : List Char := "not found".data

/-- Embeds the catch handler of SmbDirectoryHandle.getDirectoryHandle
(src/indax.ts lines 105-115): when the rejection has a message equal to the
kind-mismatch sentence its name becomes TypeMismatchError, else when the
message contains "not found" its name becomes NotFoundError, else the
rejection passes through unchanged. -/
def surfaceDirHandleError (e : JsError) : JsError :=
  match e.message with
  | none => e
  | some m =>
    if m = typeMismatchMessage then { e with name := "TypeMismatchError" }
    else if containsChars m.data notFoundChars then { e with name := "NotFoundError" }
    else e

/-- Embeds the catch handler of SmbDirectoryHandle.getFileHandle
(src/indax.ts lines 122-132), textually identical to the one in
getDirectoryHandle. -/
def surfaceFileHandleError (e : JsError) : JsError :=
  match e.message with
  | none => e
  | some m =>
    if m = typeMismatchMessage then { e with name := "TypeMismatchError" }
    else if containsChars m.data notFoundChars then { e with name := "NotFoundError" }
    else e

/-- Embeds the catch handler of the FIRST compiled copy of
SmbDirectoryHandle.getDirectoryHandle in src/examples/notify_test.js
(lines 96-101): it renames only the kind-mismatch rejection and has no
"not found" branch.  In JavaScript an undefined message compares unequal to
the sentence, which the Option comparison reproduces. -/
def surfaceDirHandleErrorNotify (e : JsError) : JsError :=
  if e.message = some typeMismatchMessage then { e with name := "TypeMismatchError" }
  else e

/-- Does the rejection's message contain the substring "not found"?  Used to
state exactly where the two compiled copies of the catch handler diverge. -/
def messageHasNotFound (e : JsError) : Bool :=
  match e.message with
  | some m => containsChars m.data notFoundChars
  | none => false

/-- State of an SmbFileHandle's underlying file and connection; the embedding
of createSyncAccessHandle ignores it entirely, as the source does. -/
structure FileHandleState where
  contents : List Byte
  connected : Bool
deriving DecidableEq

/-- Embeds SmbFileHandle.createSyncAccessHandle (src/indax.ts lines 170-172):
it throws Error with the fixed message unconditionally. -/
def createSyncAccessHandle (_st : FileHandleState) : Except JsError Unit :=
  .error { name := "Error", message := some "createSyncAccessHandle not implemented" }

/-- Modelled from the spec: the server-imposed read ceiling, MAX_READ = 8 MiB
(spec sections 4.H and 9, Chunking); the native read path is not under src/. -/
def MAX_READ : Nat := 8 * 1024 * 1024

/-- Modelled from the spec: the write ceiling MAX_WRITE = 8 MiB, equal to
MAX_READ (spec section 9, Chunking). -/
def MAX_WRITE : Nat := 8 * 1024 * 1024

/-- Error taxonomy of the spec (section 7); only the kinds the claims touch
are listed. -/
inductive ErrKind where
  | notFound
  | typeMismatch
  | invalidState
deriving DecidableEq

/-- Modelled from the spec: an error of the native core, a taxonomy kind plus
the externally visible message (spec sections 6 and 7). -/
structure SmbError where
  kind : ErrKind
  message : String
deriving DecidableEq

/-- Modelled from the spec: WritableStream state {size, cursor, locked,
closed} (spec section 3); size is the length of the data list.  The native
writable-stream implementation is not under src/. -/
structure WritableState where
  data : List Byte
  cursor : Nat
  locked : Bool
  closed : Bool
deriving DecidableEq

/-- A run of n zero bytes, used for sparse-gap and truncate-up fill. -/
def zeros (n : Nat) : List Byte := List.replicate n 0

/-- Modelled from the spec: effect of write(bytes, pos) on the file bytes
(spec section 4.I): if pos is past the end the gap [size, pos) is
zero-filled and the bytes appended; otherwise the bytes overwrite
[pos, pos+len), extending the file if needed. -/
def writeBytesAt (d : List Byte) (pos : Nat) (b : List Byte) : List Byte :=
  if d.length < pos then d ++ zeros (pos - d.length) ++ b
  else d.take pos ++ b ++ d.drop (pos + b.length)

/-- Modelled from the spec: write at an explicit position (the structured
form with a position field); afterwards the cursor is pos + len
(spec section 4.I). -/
def writeAt (s : WritableState) (pos : Nat) (b : List Byte) : WritableState :=
  { s with data := writeBytesAt s.data pos b, cursor := pos + b.length }

/-- Modelled from the spec: a raw write(b) writes at the current cursor
(spec section 4.I). -/
def writeData (s : WritableState) (b : List Byte) : WritableState :=
  writeAt s s.cursor b

/-- Modelled from the spec: truncate(n) sets size = n, zero-filling
[oldSize, n) when growing and discarding data beyond n when shrinking, and
clamps the cursor to n (spec section 4.I). -/
def truncate (s : WritableState) (n : Nat) : WritableState :=
  { s with
    data := if n ≤ s.data.length then s.data.take n
            else s.data ++ zeros (n - s.data.length),
    cursor := min s.cursor n }

/-- Modelled from the spec: close() flushes and marks the stream closed
(spec section 4.I); the committed bytes are the stream's data. -/
def closeStream (s : WritableState) : WritableState :=
  { s with closed := true }

/-- Modelled from the spec: createWritable with default options opens with
truncate, so size = 0 and cursor = 0 (spec section 4.I). -/
def createWritableDefault : WritableState :=
  { data := [], cursor := 0, locked := false, closed := false }

/-- Modelled from the spec: getWriter() fails with InvalidState
"Invalid state: WritableStream is locked" while a writer is held, else
returns the stream with locked = true (spec section 4.I). -/
def getWriter (s : WritableState) : Except SmbError WritableState :=
  if s.locked then .error ⟨.invalidState, "Invalid state: WritableStream is locked"⟩
  else .ok { s with locked := true }

/-- Modelled from the spec: releaseLock clears the locked flag
(spec section 4.I). -/
def releaseLock (s : WritableState) : WritableState :=
  { s with locked := false }

/-- Modelled from the spec: a writer operation (here the writer's close)
fails with InvalidState "Invalid state: WritableStream is closed" once
close() has been called (spec section 4.I). -/
def writerClose (s : WritableState) : Except SmbError WritableState :=
  if s.closed then .error ⟨.invalidState, "Invalid state: WritableStream is closed"⟩
  else .ok (closeStream s)

/-- Modelled from the spec: a writer write, failing once the stream is
closed, otherwise a raw write at the cursor (spec section 4.I). -/
def writerWrite (s : WritableState) (b : List Byte) : Except SmbError WritableState :=
  if s.closed then .error ⟨.invalidState, "Invalid state: WritableStream is closed"⟩
  else .ok (writeData s b)

/-- Modelled from the spec: stream() reads the file as successive chunks of
size min(MAX_READ, remaining) starting at offset 0 (spec section 4.H); the
native read path is not under src/. -/
def streamChunks (l : List Byte) : List (List Byte) :=
  if h : l = [] then []
  else l.take MAX_READ :: streamChunks (l.drop MAX_READ)
termination_by l.length
decreasing_by
  have hl : 0 < l.length := List.length_pos.mpr h
  have hm : 0 < MAX_READ := by decide
  simp only [List.length_drop]
  omega

/-- Modelled from the spec: arrayBuffer() returns one buffer assembled from
chunked reads of at most MAX_READ bytes issued sequentially from offset 0
(spec section 4.H). -/
def arrayBuffer (l : List Byte) : List Byte :=
  (streamChunks l).flatten

/-- The sequence of chunk sizes the spec prescribes for a file of n bytes:
repeatedly min(MAX_READ, remaining) until the remainder is exhausted. -/
def chunkSizes (n : Nat) : List Nat :=
  if n = 0 then [] else min MAX_READ n :: chunkSizes (n - MAX_READ)
termination_by n
decreasing_by
  have hm : 0 < MAX_READ := by decide
  omega

/-- Kinds of a directory entry as returned by stat. -/
inductive EntryKind where
  | file
  | directory
deriving DecidableEq

/-- A directory's listing: an association of entry names to kinds. -/
abbrev DirListing := List (String × EntryKind)

/-- Modelled from the spec: getDirectoryHandle(name, {create?})
(spec section 4.G): stat the name; an existing directory is returned as a
handle, an existing file is a TypeMismatch, a missing name with create set
performs mkdir and returns the handle, and otherwise the call fails NotFound
with the message Directory "<name>" not found (spec section 6).  The result
carries the possibly extended listing and the name of the returned handle. -/
def getDirectoryHandle (d : DirListing) (name : String) (create : Bool) :
    Except SmbError (DirListing × String) :=
  match d.lookup name with
  | some .directory => .ok (d, name)
  | some .file => .error ⟨.typeMismatch, typeMismatchMessage⟩
  | none =>
    if create then .ok (d ++ [(name, .directory)], name)
    else .error ⟨.notFound, "Directory \"" ++ name ++ "\" not found"⟩

/-- Modelled from the spec: the authentication mode of an endpoint
(spec section 3). -/
inductive AuthMode where
  | ntlm
  | krb5cc
  | anonymous
deriving DecidableEq

/-- Modelled from the spec: the credential bundle of an endpoint
(spec section 3). -/
structure Credentials where
  user : Option String
  password : Option String
  domain : Option String
deriving DecidableEq

/-- Modelled from the spec: an immutable endpoint; identity is the tuple of
all fields (spec section 3). -/
structure SmbEndpoint where
  server : String
  port : Nat
  share : String
  auth : AuthMode
  creds : Credentials
deriving DecidableEq

/-- Kind tag of a handle. -/
inductive HandleKind where
  | file
  | directory
deriving DecidableEq

/-- Modelled from the spec: a handle is a descriptive value made of an
endpoint reference, a kind tag and a canonical share-relative path
(spec section 3). -/
structure SmbHandle where
  endpoint : SmbEndpoint
  kind : HandleKind
  path : List String
deriving DecidableEq

/-- Modelled from the spec: isSameEntry(a, b) holds exactly when the two
handles have the same endpoint, the same kind and the same path
(spec sections 3 and 4.F; section 9 fixes this as the definition of handle
equality).  The wrapper in src/indax.ts lines 48-56 only delegates to the
native comparison, which is not under src/. -/
def isSameEntry (a b : SmbHandle) : Bool :=
  decide (a.endpoint = b.endpoint) && decide (a.kind = b.kind) && decide (a.path = b.path)

/-- The bytes of the ASCII string "hello rust", first write of the sparse
scenario (spec section 8, scenario 3). -/
def helloRust : List Byte :=
  [104, 101, 108, 108, 111, 32, 114, 117, 115, 116]

/-- The bytes of the ASCII string "tsur olleh", second write of the sparse
scenario (spec section 8, scenario 3). -/
def tsurOlleh : List Byte :=
  [116, 115, 117, 114, 32, 111, 108, 108, 101, 104]

/-! Helper lemmas shared by several claims. -/

/-- The kind-mismatch sentence does not contain the substring "not found". -/
theorem typeMismatch_no_notFound :
    containsChars typeMismatchMessage.data notFoundChars = false := by decide

/-- An element of a replicate-of-zero list, looked up in bounds, is zero. -/
theorem zeros_getElem? {k i : Nat} (h : i < k) : (zeros k)[i]? = some 0 := by
  unfold zeros
  rw [List.getElem?_eq_getElem (by simpa using h)]
  simp

/-- Length of the byte-level write effect: the new size is the maximum of the
old size and pos + len. -/
theorem writeBytesAt_length (d : List Byte) (pos : Nat) (b : List Byte) :
    (writeBytesAt d pos b).length = max d.length (pos + b.length) := by
  unfold writeBytesAt zeros
  split
  · simp only [List.length_append, List.length_replicate]
    omega
  · simp only [List.length_append, List.length_take, List.length_drop]
    omega

/-- Writing past the end leaves the original bytes, then zeros, then the new
bytes; positions in the gap read as zero. -/
theorem writeBytesAt_gap_zero (d : List Byte) (pos : Nat) (b : List Byte)
    (hpos : d.length < pos) (i : Nat) (hlo : d.length ≤ i) (hhi : i < pos) :
    (writeBytesAt d pos b)[i]? = some 0 := by
  unfold writeBytesAt
  rw [if_pos hpos]
  rw [List.append_assoc]
  rw [List.getElem?_append_right hlo]
  rw [List.getElem?_append_left (by simp [zeros]; omega)]
  exact zeros_getElem? (by omega)

/-- Concatenating the chunks of the chunked read path restores the file. -/
theorem streamChunks_flatten (l : List Byte) : (streamChunks l).flatten = l := by
  induction l using streamChunks.induct with
  | case1 =>
    rw [streamChunks]
    simp
  | case2 l h ih =>
    rw [streamChunks]
    rw [dif_neg h]
    simp only [List.flatten_cons, ih]
    exact List.take_append_drop _ _

/-- The chunk sizes of the chunked read path are exactly the spec's sequence
min(MAX_READ, remaining). -/
theorem streamChunks_sizes (l : List Byte) :
    (streamChunks l).map List.length = chunkSizes l.length := by
  induction l using streamChunks.induct with
  | case1 =>
    rw [streamChunks, chunkSizes]
    simp
  | case2 l h ih =>
    rw [streamChunks]
    rw [dif_neg h]
    rw [chunkSizes]
    rw [if_neg (by simpa using h)]
    simp only [List.map_cons, List.length_take, List.length_drop, ih]

/-- The chunk-size sequence for a 10 MiB file is 8 MiB then 2 MiB. -/
theorem chunkSizes_tenMiB : chunkSizes 10485760 = [8388608, 2097152] := by
  rw [chunkSizes]
  norm_num [MAX_READ]
  rw [chunkSizes]
  norm_num [MAX_READ]
  rw [chunkSizes]
  norm_num

/-! Claim theorems. -/

/-- Claim C1: for every byte buffer of length at most 10 MiB, writing it on a
fresh writable stream, closing, and reading back through the chunked
arrayBuffer path returns exactly the written bytes. -/
theorem c1_write_read_roundtrip (b : List Byte) (hb : b.length ≤ 10 * 1024 * 1024) :
    arrayBuffer (closeStream (writeData createWritableDefault b)).data = b := by
  have h1 : (closeStream (writeData createWritableDefault b)).data = b := by
    simp [closeStream, writeData, writeAt, createWritableDefault, writeBytesAt]
  rw [h1]
  exact streamChunks_flatten b

/-- Witness for C1 at the concrete buffer [1, 2, 3]. -/
theorem c1_witness :
    arrayBuffer (closeStream (writeData createWritableDefault [1, 2, 3])).data = [1, 2, 3] :=
  c1_write_read_roundtrip [1, 2, 3] (by decide)

/-- Claim C2: a write at a position beyond the current size zero-fills the
gap, sets size to max(size, pos + len) and cursor to pos + len; in
particular the sparse scenario of two writes yields "hello rust", three
zero bytes, "tsur olleh", of size 23. -/
theorem c2_sparse_write (s : WritableState) (pos : Nat) (b : List Byte)
    (hpos : s.data.length < pos) :
    (∀ i, s.data.length ≤ i → i < pos → (writeAt s pos b).data[i]? = some 0) ∧
    (writeAt s pos b).data.length = max s.data.length (pos + b.length) ∧
    (writeAt s pos b).cursor = pos + b.length ∧
    (writeAt (writeData createWritableDefault helloRust) 13 tsurOlleh).data
      = helloRust ++ zeros 3 ++ tsurOlleh ∧
    (writeAt (writeData createWritableDefault helloRust) 13 tsurOlleh).data.length = 23 := by
  refine ⟨?_, ?_, rfl, by decide, by decide⟩
  · intro i h1 h2
    exact writeBytesAt_gap_zero s.data pos b hpos i h1 h2
  · exact writeBytesAt_length s.data pos b

/-- Witness for C2 on the sparse scenario: byte 11 of the gap is zero and
the cursor ends at 23. -/
theorem c2_witness :
    (writeAt (writeData createWritableDefault helloRust) 13 tsurOlleh).data[11]? = some 0 ∧
    (writeAt (writeData createWritableDefault helloRust) 13 tsurOlleh).cursor
      = 13 + tsurOlleh.length :=
  ⟨(c2_sparse_write (writeData createWritableDefault helloRust) 13 tsurOlleh
      (by decide)).1 11 (by decide) (by decide),
   (c2_sparse_write (writeData createWritableDefault helloRust) 13 tsurOlleh
      (by decide)).2.2.1⟩

/-- Claim C3: the stream of a file is chunked as min(MAX_READ, remaining)
from offset 0, the chunks concatenate back to the file, and a file of
exactly 10 MiB streams as one 8 MiB chunk followed by one 2 MiB chunk. -/
theorem c3_stream_chunking (l : List Byte) :
    (streamChunks l).map List.length = chunkSizes l.length ∧
    (streamChunks l).flatten = l ∧
    (l.length = 10485760 → (streamChunks l).map List.length = [8388608, 2097152]) := by
  refine ⟨streamChunks_sizes l, streamChunks_flatten l, ?_⟩
  intro h
  rw [streamChunks_sizes, h, chunkSizes_tenMiB]

/-- Witness for C3 at a concrete 10 MiB file of zero bytes. -/
theorem c3_witness :
    (streamChunks (List.replicate 10485760 (0 : Byte))).map List.length
      = [8388608, 2097152] :=
  (c3_stream_chunking (List.replicate 10485760 (0 : Byte))).2.2
    (List.length_replicate 10485760 (0 : Byte))

/-- Claim C4: truncate(n) sets the size to exactly n, zero-fills [oldSize, n)
when growing, keeps exactly the first n bytes when shrinking, and clamps the
cursor to at most n. -/
theorem c4_truncate (s : WritableState) (n : Nat) :
    (truncate s n).data.length = n ∧
    (s.data.length < n → ∀ i, s.data.length ≤ i → i < n → (truncate s n).data[i]? = some 0) ∧
    (n < s.data.length → (truncate s n).data = s.data.take n) ∧
    (truncate s n).cursor ≤ n ∧
    (n < s.cursor → (truncate s n).cursor = n) := by
  refine ⟨?_, ?_, ?_, ?_, ?_⟩
  · show (if n ≤ s.data.length then s.data.take n
          else s.data ++ zeros (n - s.data.length)).length = n
    split
    · simp only [List.length_take]
      omega
    · simp only [List.length_append, zeros, List.length_replicate]
      omega
  · intro hgrow i h1 h2
    show (if n ≤ s.data.length then s.data.take n
          else s.data ++ zeros (n - s.data.length))[i]? = some 0
    rw [if_neg (by omega)]
    rw [List.getElem?_append_right h1]
    exact zeros_getElem? (by omega)
  · intro hsh
    show (if n ≤ s.data.length then s.data.take n
          else s.data ++ zeros (n - s.data.length)) = s.data.take n
    rw [if_pos (by omega)]
  · exact Nat.min_le_right s.cursor n
  · intro h
    show min s.cursor n = n
    omega

/-- Witness for C4 at a 10-byte file with cursor 10: growing to 13 zero-fills
position 11, shrinking to 4 keeps the 4-byte front and clamps the cursor. -/
theorem c4_witness :
    (truncate ⟨helloRust, 10, false, false⟩ 13).data[11]? = some 0 ∧
    (truncate ⟨helloRust, 10, false, false⟩ 4).data = helloRust.take 4 ∧
    (truncate ⟨helloRust, 10, false, false⟩ 4).cursor = 4 :=
  ⟨(c4_truncate ⟨helloRust, 10, false, false⟩ 13).2.1 (by decide) 11 (by decide) (by decide),
   (c4_truncate ⟨helloRust, 10, false, false⟩ 4).2.2.1 (by decide),
   (c4_truncate ⟨helloRust, 10, false, false⟩ 4).2.2.2.2 (by decide)⟩

/-- Claim C5: getWriter sets locked and is single-holder, failing with the
locked InvalidState message while locked; releaseLock clears locked; once
the stream is closed every writer operation fails with the closed
InvalidState message. -/
theorem c5_writer_lock (s : WritableState) :
    (s.locked = false → getWriter s = .ok { s with locked := true }) ∧
    (s.locked = true → getWriter s =
      .error ⟨.invalidState, "Invalid state: WritableStream is locked"⟩) ∧
    (releaseLock s).locked = false ∧
    (getWriter s = .ok { s with locked := true } → (getWriter { s with locked := true }) =
      .error ⟨.invalidState, "Invalid state: WritableStream is locked"⟩) ∧
    writerClose (closeStream s) =
      .error ⟨.invalidState, "Invalid state: WritableStream is closed"⟩ ∧
    (∀ b, writerWrite (closeStream s) b =
      .error ⟨.invalidState, "Invalid state: WritableStream is closed"⟩) := by
  refine ⟨?_, ?_, rfl, ?_, ?_, ?_⟩
  · intro h
    simp [getWriter, h]
  · intro h
    simp [getWriter, h]
  · intro _
    simp [getWriter]
  · simp [writerClose, closeStream]
  · intro b
    simp [writerWrite, closeStream]

/-- Witness for C5 at the fresh stream: the first getWriter succeeds and
locks, a second getWriter fails with the locked message, and after close the
writer's close fails with the closed message. -/
theorem c5_witness :
    getWriter createWritableDefault = .ok { createWritableDefault with locked := true } ∧
    getWriter { createWritableDefault with locked := true } =
      .error ⟨.invalidState, "Invalid state: WritableStream is locked"⟩ ∧
    writerClose (closeStream createWritableDefault) =
      .error ⟨.invalidState, "Invalid state: WritableStream is closed"⟩ :=
  ⟨(c5_writer_lock createWritableDefault).1 rfl,
   (c5_writer_lock { createWritableDefault with locked := true }).2.1 rfl,
   (c5_writer_lock createWritableDefault).2.2.2.2.1⟩

/-- Claim C6: getDirectoryHandle returns a handle for an existing directory,
fails TypeMismatch on an existing file, creates and returns when missing
with create set, and otherwise fails NotFound with the message
Directory "name" not found. -/
theorem c6_getDirectoryHandle (d : DirListing) (name : String) (create : Bool) :
    (d.lookup name = some EntryKind.directory →
      getDirectoryHandle d name create = .ok (d, name)) ∧
    (d.lookup name = some EntryKind.file →
      getDirectoryHandle d name create = .error ⟨.typeMismatch, typeMismatchMessage⟩) ∧
    (d.lookup name = none → create = true →
      getDirectoryHandle d name create = .ok (d ++ [(name, EntryKind.directory)], name)) ∧
    (d.lookup name = none → create = false →
      getDirectoryHandle d name create =
        .error ⟨.notFound, "Directory \"" ++ name ++ "\" not found"⟩) := by
  refine ⟨?_, ?_, ?_, ?_⟩
  · intro h
    simp [getDirectoryHandle, h]
  · intro h
    simp [getDirectoryHandle, h]
  · intro h hc
    simp [getDirectoryHandle, h, hc]
  · intro h hc
    simp [getDirectoryHandle, h, hc]

/-- Witness for C6 on concrete listings exercising all four branches. -/
theorem c6_witness :
    getDirectoryHandle [("a", EntryKind.file), ("b", EntryKind.directory)] "b" false
      = .ok ([("a", EntryKind.file), ("b", EntryKind.directory)], "b") ∧
    getDirectoryHandle [("a", EntryKind.file)] "a" false
      = .error ⟨.typeMismatch, typeMismatchMessage⟩ ∧
    getDirectoryHandle [] "c" true = .ok ([("c", EntryKind.directory)], "c") ∧
    getDirectoryHandle [] "c" false
      = .error ⟨.notFound, "Directory \"" ++ "c" ++ "\" not found"⟩ :=
  ⟨(c6_getDirectoryHandle [("a", EntryKind.file), ("b", EntryKind.directory)] "b" false).1
      (by decide),
   (c6_getDirectoryHandle [("a", EntryKind.file)] "a" false).2.1 (by decide),
   (c6_getDirectoryHandle [] "c" true).2.2.1 rfl rfl,
   (c6_getDirectoryHandle [] "c" false).2.2.2 rfl rfl⟩

/-- Claim C7: a rejection of getDirectoryHandle or getFileHandle whose
message is exactly the kind-mismatch sentence surfaces with name
TypeMismatchError, and one whose message contains "not found" surfaces with
name NotFoundError. -/
theorem c7_surfaced_error_names (e : JsError) :
    (e.message = some typeMismatchMessage →
      (surfaceDirHandleError e).name = "TypeMismatchError" ∧
      (surfaceFileHandleError e).name = "TypeMismatchError") ∧
    (∀ m, e.message = some m → containsChars m.data notFoundChars = true →
      (surfaceDirHandleError e).name = "NotFoundError" ∧
      (surfaceFileHandleError e).name = "NotFoundError") := by
  constructor
  · intro h
    constructor <;> simp [surfaceDirHandleError, surfaceFileHandleError, h]
  · intro m hm hc
    have hne : m ≠ typeMismatchMessage := by
      intro he
      subst he
      rw [typeMismatch_no_notFound] at hc
      exact Bool.false_ne_true hc
    constructor <;> simp [surfaceDirHandleError, surfaceFileHandleError, hm, hne, hc]

/-- Witness for C7 at the kind-mismatch sentence and at a concrete
not-found message. -/
theorem c7_witness :
    (surfaceDirHandleError ⟨"Error", some typeMismatchMessage⟩).name = "TypeMismatchError" ∧
    (surfaceFileHandleError ⟨"Error", some "File \"a\" not found"⟩).name = "NotFoundError" :=
  ⟨((c7_surfaced_error_names ⟨"Error", some typeMismatchMessage⟩).1 rfl).1,
   ((c7_surfaced_error_names ⟨"Error", some "File \"a\" not found"⟩).2
      "File \"a\" not found" rfl (by decide)).2⟩

/-- Claim C8: isSameEntry is the equivalence relation determined by
(endpoint, kind, path): it is reflexive, it holds exactly when the two
handles share endpoint, kind and path, and consequently it is symmetric and
transitive. -/
theorem c8_isSameEntry_characterisation :
    (∀ h : SmbHandle, isSameEntry h h = true) ∧
    (∀ a b : SmbHandle, isSameEntry a b = true ↔
      (a.endpoint = b.endpoint ∧ a.kind = b.kind ∧ a.path = b.path)) ∧
    (∀ a b : SmbHandle, isSameEntry a b = isSameEntry b a) ∧
    (∀ a b c : SmbHandle, isSameEntry a b = true → isSameEntry b c = true →
      isSameEntry a c = true) := by
  have hchar : ∀ a b : SmbHandle, isSameEntry a b = true ↔
      (a.endpoint = b.endpoint ∧ a.kind = b.kind ∧ a.path = b.path) := by
    intro a b
    simp [isSameEntry, and_assoc]
  refine ⟨?_, hchar, ?_, ?_⟩
  · intro h
    simp [isSameEntry]
  · intro a b
    rcases hb : isSameEntry b a with _ | _
    · rcases ha : isSameEntry a b with _ | _
      · rfl
      · obtain ⟨h1, h2, h3⟩ := (hchar a b).mp ha
        exact absurd ((hchar b a).mpr ⟨h1.symm, h2.symm, h3.symm⟩) (by simp [hb])
    · obtain ⟨h1, h2, h3⟩ := (hchar b a).mp hb
      exact (hchar a b).mpr ⟨h1.symm, h2.symm, h3.symm⟩
  · intro a b c hab hbc
    obtain ⟨h1, h2, h3⟩ := (hchar a b).mp hab
    obtain ⟨h4, h5, h6⟩ := (hchar b c).mp hbc
    exact (hchar a c).mpr ⟨h1.trans h4, h2.trans h5, h3.trans h6⟩

/-- Witness for C8: transitivity applied at a concrete handle, its
hypotheses discharged by evaluation. -/
theorem c8_witness :
    isSameEntry
      ⟨⟨"srv", 445, "share", AuthMode.anonymous, ⟨none, none, none⟩⟩, HandleKind.file, ["a"]⟩
      ⟨⟨"srv", 445, "share", AuthMode.anonymous, ⟨none, none, none⟩⟩, HandleKind.file, ["a"]⟩
      = true :=
  c8_isSameEntry_characterisation.2.2.2
    ⟨⟨"srv", 445, "share", AuthMode.anonymous, ⟨none, none, none⟩⟩, HandleKind.file, ["a"]⟩
    ⟨⟨"srv", 445, "share", AuthMode.anonymous, ⟨none, none, none⟩⟩, HandleKind.file, ["a"]⟩
    ⟨⟨"srv", 445, "share", AuthMode.anonymous, ⟨none, none, none⟩⟩, HandleKind.file, ["a"]⟩
    (by decide) (by decide)

/-- Counterexample for C9: on a rejection whose message contains "not found",
the handler in src/indax.ts renames the error to NotFoundError while the
first compiled copy in src/examples/notify_test.js leaves the name
unchanged, so the two methods are not extensionally equal. -/
theorem c9_counterexample :
    surfaceDirHandleError ⟨"Error", some "Directory \"x\" not found"⟩ ≠
      surfaceDirHandleErrorNotify ⟨"Error", some "Directory \"x\" not found"⟩ := by
  decide

/-- Claim C9 as amended: the two copies agree on every rejection whose
message does not contain "not found"; when the message does contain it, the
src/indax.ts handler additionally renames the error to NotFoundError. -/
theorem c9_amended_agreement (e : JsError) :
    surfaceDirHandleError e =
      (if messageHasNotFound e then { e with name := "NotFoundError" }
       else surfaceDirHandleErrorNotify e) := by
  obtain ⟨n, msg⟩ := e
  cases msg with
  | none =>
    simp [surfaceDirHandleError, surfaceDirHandleErrorNotify, messageHasNotFound]
  | some m =>
    by_cases htm : m = typeMismatchMessage
    · subst htm
      simp [surfaceDirHandleError, surfaceDirHandleErrorNotify, messageHasNotFound,
        typeMismatch_no_notFound]
    · by_cases hc : containsChars m.data notFoundChars
      · simp [surfaceDirHandleError, surfaceDirHandleErrorNotify, messageHasNotFound,
          htm, hc]
      · simp [surfaceDirHandleError, surfaceDirHandleErrorNotify, messageHasNotFound,
          htm, hc]

/-- Claim C10: createSyncAccessHandle throws Error with the fixed message
regardless of the file or connection state. -/
theorem c10_createSyncAccessHandle (st : FileHandleState) :
    createSyncAccessHandle st =
      .error { name := "Error", message := some "createSyncAccessHandle not implemented" } :=
  rfl

end Smb
